import Mathlib

/-!
Verification of the vSphere cloud-provider lifecycle manager
(`pkg/provider/cloud/vsphere`): credential resolution, session login user,
VM root-path computation, folder listing, cloud-spec validation, and the
initialize / clean-up orchestration with its finalizer handling.

External collaborators (govmomi calls, the REST session, the secret store,
the atomic cluster updater) are modelled as an explicit environment that
fixes the outcome of each call site; every external call the code performs
is recorded in an event trace so that frame conditions ("no folder deletion
happens") can be stated.
-/

/-! ## Go `path` package: `Clean` and `Join` (lexical path normalization) -/

-- Character-level split on '/'; `splitSlash "a/b" = [[a],[b]]`, keeping empty
-- segments exactly as Go's `strings.Split` does.
def splitSlash : List Char → List (List Char)
  | [] => [[]]
  | c :: cs =>
    let r := splitSlash cs
    if c = '/' then [] :: r
    else (c :: r.headI) :: r.tail

-- `strings.Join`-style joining of path components with "/".
def joinSlash : List String → String
  | [] => ""
  | [c] => c
  | c :: cs => c ++ "/" ++ joinSlash cs

-- One step of Go `path.Clean`'s component processing: ".." pops the last
-- component (rooted paths drop ".." at the root; relative paths keep it).
def cleanStep (rooted : Bool) (acc : List (List Char)) (c : List Char) : List (List Char) :=
  if c = ['.', '.'] then
    if rooted then acc.dropLast
    else
      match acc.getLast? with
      | some l => if l = ['.', '.'] then acc ++ [c] else acc.dropLast
      | none => acc ++ [c]
  else acc ++ [c]

/-- Go `path.Clean`: lexical normalization — collapses multiple slashes,
eliminates "." components, resolves ".." components, returns "." for the
empty result, and preserves rootedness. -/
def pathClean (p : String) : String :=
  if p = "" then "."
  else
    let rooted := p.toList.headI = '/'
    let comps := (splitSlash p.toList).filter fun c => decide (c ≠ [] ∧ c ≠ ['.'])
    let outs := comps.foldl (cleanStep (decide rooted)) []
    if outs = [] then (if rooted then "/" else ".")
    else (if rooted then "/" else "") ++ joinSlash (outs.map fun c => String.mk c)

/-- Go `path.Join`: concatenates the non-empty elements with "/" and cleans
the result; returns "" when every element is empty. -/
def goPathJoin (elems : List String) : String :=
  let buf := elems.foldl
    (fun buf e => if buf ≠ "" then buf ++ "/" ++ e else if e ≠ "" then e else buf) ""
  if buf = "" then "" else pathClean buf

/-! ## Data model (kubermatic v1 types, restricted to the fields the code reads) -/

/-- `kubermaticv1.VSphereCredentials`: a username/password pair. -/
structure VSphereCredentials where
  username : String
  password : String
deriving DecidableEq, Repr

/-- `kubermaticv1.VSphereCloudSpec` (cluster-level cloud spec fields read by
the provider). `credentialsReference` is modelled as a presence flag; the
secret lookups themselves go through the secret-key-selector function. -/
structure VSphereCloudSpec where
  username : String
  password : String
  folder : String
  datastore : String
  datastoreCluster : String
  resourcePool : String
  tagCategoryID : String
  infraManagementUser : VSphereCredentials
  credentialsReference : Bool
deriving DecidableEq, Repr

/-- `kubermaticv1.DatacenterSpecVSphere` (operator-provided datacenter spec). -/
structure DatacenterSpecVSphere where
  endpoint : String
  datacenter : String
  allowInsecure : Bool
  defaultDatastore : String
  rootPath : String
  infraManagementUser : Option VSphereCredentials
deriving DecidableEq, Repr

/-- `kubermaticv1.CloudSpec` with its nilable vSphere section, as needed by
`ValidateCloudSpecUpdate`'s nil check. -/
structure CloudSpec where
  vsphere : Option VSphereCloudSpec
deriving DecidableEq, Repr

/-- `kubermaticv1.Cluster` restricted to what the provider touches: its name,
its finalizer list and its vSphere cloud spec (the lifecycle entry points
dereference `cluster.Spec.Cloud.VSphere` unconditionally, so the section is
carried directly). -/
structure Cluster where
  name : String
  finalizers : List String
  vsphere : VSphereCloudSpec
deriving DecidableEq, Repr

def folderCleanupFinalizer : String := "kubermatic.k8c.io/cleanup-vsphere-folder"

def tagCategoryCleanupFinilizer : String := "kubermatic.k8c.io/cleanup-vsphere-tag-category"

def defaultCategory : String := "cluster"

/-- `kuberneteshelper.AddFinalizer`: set-style insertion into the finalizer list. -/
def addFinalizer (fs : List String) (f : String) : List String :=
  if f ∈ fs then fs else fs ++ [f]

/-- `kuberneteshelper.RemoveFinalizer`: removes every occurrence. -/
def removeFinalizer (fs : List String) (f : String) : List String :=
  fs.filter fun x => x ≠ f

/-- `kuberneteshelper.HasFinalizer`. -/
def hasFinalizer (c : Cluster) (f : String) : Prop :=
  f ∈ c.finalizers

instance (c : Cluster) (f : String) : Decidable (hasFinalizer c f) := by
  unfold hasFinalizer; infer_instance

/-! ## Secret-store key names -/

/-- Modelled from the spec: the `resources` package key constants are not part
of the provided sources; the spec only requires a management-user key,
queried before the plain key, for each of username and password. -/
def VsphereUsername : String := "username"

def VspherePassword : String := "password"

def VsphereInfraManagementUserUsername : String := "infraManagementUserUsername"

def VsphereInfraManagementUserPassword : String := "infraManagementUserPassword"

/-- `provider.SecretKeySelectorValueFunc` specialized to the cluster's fixed
credentials reference: a lookup from key name to secret value. -/
def SecretKeySelector : Type := String → Except String String

/-- The `Provider` struct: datacenter spec plus secret-key selector
(the CA bundle carries no logic). -/
structure Provider where
  dc : DatacenterSpecVSphere
  secretKeySelector : SecretKeySelector

/-! ## getVMRootPath -/

/-- `getVMRootPath`: `path.Join("/", dc.Datacenter, "vm")` unless
`dc.RootPath` is set, in which case `path.Clean(dc.RootPath)` wins. -/
def getVMRootPath (dc : DatacenterSpecVSphere) : String :=
  let rootPath := goPathJoin ["/", dc.datacenter, "vm"]
  if dc.rootPath ≠ "" then pathClean dc.rootPath else rootPath

/-! ## Credential resolution -/

/-- `getUsernameAndPassword`: merges the cluster-level infra-management user
(when requested) with the inline cluster credentials, falling back to the
secret store keyed by the credentials reference, each of username and
password independently; the management-user secret key is queried before the
plain key. -/
def getUsernameAndPassword (cloud : VSphereCloudSpec) (secretKeySelector : SecretKeySelector)
    ( infraManagementUser : Bool) : Except String (String × String) :=
  let username := if infraManagementUser then cloud.infraManagementUser.username else ""
  let password := if infraManagementUser then cloud.infraManagementUser.password else ""
  let username := if username = "" then cloud.username else username
  let password := if password = "" then cloud.password else password
  if username ≠ "" ∧ password ≠ "" then
    .ok (username, password)
  else if !cloud.credentialsReference then
    .error "cluster contains no password an and empty credentialsReference"
  else
    match
      (if username = "" ∧ infraManagementUser then
        secretKeySelector VsphereInfraManagementUserUsername
      else .ok username) with
    | .error e => .error e
    | .ok username =>
      match (if username = "" then secretKeySelector VsphereUsername else .ok username) with
      | .error e => .error e
      | .ok username =>
        match
          (if password = "" ∧ infraManagementUser then
            secretKeySelector VsphereInfraManagementUserPassword
          else .ok password) with
        | .error e => .error e
        | .ok password =>
          match (if password = "" then secretKeySelector VspherePassword else .ok password) with
          | .error e => .error e
          | .ok password =>
            if username = "" then .error "unable to get username"
            else if password = "" then .error "unable to get password"
            else .ok (username, password)

/-- `GetCredentialsForCluster`: the datacenter-level infra-management user
wins outright when both of its fields are non-empty; otherwise resolution
falls through to `getUsernameAndPassword` with the infra-management flag set. -/
def GetCredentialsForCluster (cloud : VSphereCloudSpec) (secretKeySelector : SecretKeySelector)
    (dc : Option DatacenterSpecVSphere) : Except String (String × String) :=
  match dc with
  | some d =>
    match d.infraManagementUser with
    | some u =>
      if u.username ≠ "" ∧ u.password ≠ "" then .ok (u.username, u.password)
      else getUsernameAndPassword cloud secretKeySelector true
    | none => getUsernameAndPassword cloud secretKeySelector true
  | none => getUsernameAndPassword cloud secretKeySelector true

/-! ## Session login user -/

/-- The login identity computed by `newSession` (lines 521-524): the
datacenter-level infra-management user, when its pointer is non-nil,
replaces the username/password arguments wholesale. -/
def newSessionLoginUser (dc : DatacenterSpecVSphere) (username password : String) :
    String × String :=
  match dc.infraManagementUser with
  | some u => (u.username, u.password)
  | none => (username, password)

/-! ## Lifecycle orchestration

The external, non-transactional calls (vCenter sessions, folder and tag
category operations, the atomic cluster updater) are modelled by an
environment fixing the outcome of each call site; each performed call is
appended to an event trace. -/

/-- One externally visible call performed by a lifecycle operation. -/
inductive CloudEvent where
  | openSession
  | openRESTSession
  | createFolder (path : String)
  | deleteFolder (path : String)
  | createTagCategory
  | deleteTagCategory
  | updateCluster
deriving DecidableEq, Repr

/-- Outcomes of the external call sites reached by `InitializeCloudProvider`
and `CleanUpCloudProvider` (`none` = the call succeeds; `some e` = it fails
with error `e`). Folder operations may fail path-dependently. -/
structure CloudEnv where
  newSessionErr : Option String
  newRESTSessionErr : Option String
  createVMFolderErr : String → Option String
  deleteVMFolderErr : String → Option String
  createTagCategoryRes : Except String String
  deleteTagCategoryErr : Option String
  updateFolderErr : Option String
  updateTagErr : Option String
  updateFolderCleanupErr : Option String
  updateTagCleanupErr : Option String

/-- Result of a lifecycle call: the value the Go function returns, the
tracked cluster resource as persisted by the atomic updater when the call
ends (unchanged whenever no update was applied), and the trace of external
calls performed. -/
structure LifecycleResult where
  result : Except String Cluster
  persisted : Cluster
  trace : List CloudEvent

/-- `InitializeCloudProvider`: resolve credentials; if `folder` is empty,
open a data-plane session, create the per-cluster VM folder under the
computed root path and persist folder + cleanup finalizer through the
updater; if `tagCategoryID` is empty, open a REST session, create the
default tag category and persist its ID + cleanup finalizer. -/
def InitializeCloudProvider (p : Provider) (env : CloudEnv) (cluster : Cluster) :
    LifecycleResult :=
  match GetCredentialsForCluster cluster.vsphere p.secretKeySelector (some p.dc) with
  | .error e => ⟨.error e, cluster, []⟩
  | .ok _ =>
    let rootPath := getVMRootPath p.dc
    let folderRes : LifecycleResult :=
      if cluster.vsphere.folder = "" then
        match env.newSessionErr with
        | some e => ⟨.error ("failed to create vCenter session: " ++ e), cluster, [.openSession]⟩
        | none =>
          let clusterFolder := goPathJoin [rootPath, cluster.name]
          match env.createVMFolderErr clusterFolder with
          | some e =>
            ⟨.error ("failed to create the VM folder " ++ clusterFolder ++ ": " ++ e),
              cluster, [.openSession, .createFolder clusterFolder]⟩
          | none =>
            let mutated : Cluster :=
              { cluster with
                finalizers := addFinalizer cluster.finalizers folderCleanupFinalizer
                vsphere := { cluster.vsphere with folder := clusterFolder } }
            match env.updateFolderErr with
            | some e =>
              ⟨.error e, cluster, [.openSession, .createFolder clusterFolder, .updateCluster]⟩
            | none =>
              ⟨.ok mutated, mutated, [.openSession, .createFolder clusterFolder, .updateCluster]⟩
      else ⟨.ok cluster, cluster, []⟩
    match folderRes with
    | ⟨.error e, persisted, tr⟩ => ⟨.error e, persisted, tr⟩
    | ⟨.ok c1, _, tr⟩ =>
      if c1.vsphere.tagCategoryID = "" then
        match env.newRESTSessionErr with
        | some e =>
          ⟨.error ("failed to create REST client session: " ++ e), c1, tr ++ [.openRESTSession]⟩
        | none =>
          match env.createTagCategoryRes with
          | .error e =>
            ⟨.error ("failed to create tag category: " ++ e), c1,
              tr ++ [.openRESTSession, .createTagCategory]⟩
          | .ok categoryID =>
            let mutated : Cluster :=
              { c1 with
                finalizers := addFinalizer c1.finalizers tagCategoryCleanupFinilizer
                vsphere := { c1.vsphere with tagCategoryID := categoryID } }
            match env.updateTagErr with
            | some e =>
              ⟨.error e, c1, tr ++ [.openRESTSession, .createTagCategory, .updateCluster]⟩
            | none =>
              ⟨.ok mutated, mutated,
                tr ++ [.openRESTSession, .createTagCategory, .updateCluster]⟩
      else ⟨.ok c1, c1, tr⟩

/-- `CleanUpCloudProvider`: resolve credentials, open the data-plane and the
REST session unconditionally, then: if the folder-cleanup finalizer is
present, delete the stored folder and remove that finalizer through the
updater; if the tag-category finalizer is present, delete the category and
remove that finalizer. Deletion errors are returned unwrapped. -/
def CleanUpCloudProvider (p : Provider) (env : CloudEnv) (cluster : Cluster) :
    LifecycleResult :=
  match GetCredentialsForCluster cluster.vsphere p.secretKeySelector (some p.dc) with
  | .error e => ⟨.error e, cluster, []⟩
  | .ok _ =>
    match env.newSessionErr with
    | some e => ⟨.error ("failed to create vCenter session: " ++ e), cluster, [.openSession]⟩
    | none =>
      match env.newRESTSessionErr with
      | some e =>
        ⟨.error ("failed to create REST client session: " ++ e), cluster,
          [.openSession, .openRESTSession]⟩
      | none =>
        let folderRes : LifecycleResult :=
          if hasFinalizer cluster folderCleanupFinalizer then
            match env.deleteVMFolderErr cluster.vsphere.folder with
            | some e =>
              ⟨.error e, cluster,
                [.openSession, .openRESTSession, .deleteFolder cluster.vsphere.folder]⟩
            | none =>
              let mutated : Cluster :=
                { cluster with finalizers := removeFinalizer cluster.finalizers folderCleanupFinalizer }
              match env.updateFolderCleanupErr with
              | some e =>
                ⟨.error e, cluster,
                  [.openSession, .openRESTSession, .deleteFolder cluster.vsphere.folder,
                    .updateCluster]⟩
              | none =>
                ⟨.ok mutated, mutated,
                  [.openSession, .openRESTSession, .deleteFolder cluster.vsphere.folder,
                    .updateCluster]⟩
          else ⟨.ok cluster, cluster, [.openSession, .openRESTSession]⟩
        match folderRes with
        | ⟨.error e, persisted, tr⟩ => ⟨.error e, persisted, tr⟩
        | ⟨.ok c1, _, tr⟩ =>
          if hasFinalizer c1 tagCategoryCleanupFinilizer then
            match env.deleteTagCategoryErr with
            | some e => ⟨.error e, c1, tr ++ [.deleteTagCategory]⟩
            | none =>
              let mutated : Cluster :=
                { c1 with finalizers := removeFinalizer c1.finalizers tagCategoryCleanupFinilizer }
              match env.updateTagCleanupErr with
              | some e => ⟨.error e, c1, tr ++ [.deleteTagCategory, .updateCluster]⟩
              | none => ⟨.ok mutated, mutated, tr ++ [.deleteTagCategory, .updateCluster]⟩
          else ⟨.ok c1, c1, tr⟩

/-! ## Validation and folder listing -/

/-- Outcomes of the lookup call sites reached by `ValidateCloudSpec`. -/
structure ValidateEnv where
  newSessionErr : Option String
  defaultDatastoreLookupErr : Option String
  resourcePoolLookupErr : Option String
  datastoreClusterLookupErr : Option String
  datastoreLookupErr : Option String

/-- `ValidateCloudSpec`: resolve credentials; structural datastore checks
(run before any session is opened); then open a data-plane session and
resolve each configured name against the live inventory. -/
def ValidateCloudSpec (p : Provider) (env : ValidateEnv) (spec : VSphereCloudSpec) :
    Except String Unit × List CloudEvent :=
  match GetCredentialsForCluster spec p.secretKeySelector (some p.dc) with
  | .error e => (.error e, [])
  | .ok _ =>
    if p.dc.defaultDatastore = "" ∧ spec.datastoreCluster = "" ∧ spec.datastore = "" then
      (.error "no default datastore provided at datacenter nor datastore/datastore cluster at cluster level",
        [])
    else if spec.datastoreCluster ≠ "" ∧ spec.datastore ≠ "" then
      (.error "either datastore or datastore cluster can be selected", [])
    else
      match env.newSessionErr with
      | some e => (.error ("failed to create vCenter session: " ++ e), [.openSession])
      | none =>
        let res : Except String Unit :=
          match (if p.dc.defaultDatastore ≠ "" then env.defaultDatastoreLookupErr else none) with
          | some e =>
            .error ("failed to get default datastore provided by datacenter spec " ++
              p.dc.defaultDatastore ++ ": " ++ e)
          | none =>
            match (if spec.resourcePool ≠ "" then env.resourcePoolLookupErr else none) with
            | some e => .error ("failed to get resource pool " ++ spec.resourcePool ++ ": " ++ e)
            | none =>
              match (if spec.datastoreCluster ≠ "" then env.datastoreClusterLookupErr else none) with
              | some e =>
                .error ("failed to get datastore cluster provided by cluster spec " ++
                  spec.datastoreCluster ++ ": " ++ e)
              | none =>
                match (if spec.datastore ≠ "" then env.datastoreLookupErr else none) with
                | some e =>
                  .error ("failed to get datastore cluster provided by cluste spec " ++
                    spec.datastore ++ ": " ++ e)
                | none => .ok ()
        (res, [.openSession])

/-- `ValidateCloudSpecUpdate`: pure check — rejects a nil vSphere section and
rejects changing `folder` away from a previously non-empty value. -/
def ValidateCloudSpecUpdate (oldSpec newSpec : CloudSpec) : Except String Unit :=
  if oldSpec.vsphere.isNone ∨ newSpec.vsphere.isNone then
    .error "vsphere spec is empty"
  else
    match oldSpec.vsphere, newSpec.vsphere with
    | some o, some n =>
      if o.folder ≠ "" ∧ o.folder ≠ n.folder then
        .error ("updating vSphere folder is not supported (was " ++ o.folder ++
          ", updated to " ++ n.folder ++ ")")
      else .ok ()
    | _, _ => .error "vsphere spec is empty"

/-- A vCenter inventory folder. -/
structure Folder where
  path : String
deriving DecidableEq, Repr

/-- Outcomes of the call sites reached by `GetVMFolders`: the session open
and the recursive inventory listing of every folder path. -/
structure FoldersEnv where
  newSessionErr : Option String
  folderListRes : Except String (List String)

/-- Go `strings.HasPrefix`. -/
def goHasPrefix (s pre : String) : Bool :=
  decide (pre.toList <+: s.toList)

/-- `GetVMFolders`: lists the whole inventory folder tree, then keeps only
the folders whose path equals the computed root path or extends it past a
"/" boundary (the source skips a folder when the "rootPath/" prefix test
fails and the path is not the root itself). -/
def GetVMFolders (dc : DatacenterSpecVSphere) (env : FoldersEnv) :
    Except String (List Folder) :=
  match env.newSessionErr with
  | some e => .error ("failed to create vCenter session: " ++ e)
  | none =>
    match env.folderListRes with
    | .error e => .error ("could not retrieve folder list: " ++ e)
    | .ok paths =>
      let rootPath := getVMRootPath dc
      .ok ((paths.filter fun pth =>
        goHasPrefix pth (rootPath ++ "/") || pth == rootPath).map fun pth => ⟨pth⟩)

/-! ## Spec-side reference definitions for credential precedence

Named `specResolve…` because they transcribe the specification's words
("cluster-level infraManagementUser over inline username/password over
secret-store lookup, management-user key before plain key, each field
independently") rather than the source, for comparison with
`getUsernameAndPassword`. -/

/-- Reference username resolution chain, following the spec's words. -/
def specResolveUsername (cloud : VSphereCloudSpec) (sks : SecretKeySelector) :
    Except String String :=
  if cloud.infraManagementUser.username ≠ "" then .ok cloud.infraManagementUser.username
  else if cloud.username ≠ "" then .ok cloud.username
  else if cloud.credentialsReference then
    match sks VsphereInfraManagementUserUsername with
    | .error e => .error e
    | .ok u => if u = "" then sks VsphereUsername else .ok u
  else .error "no source can resolve the username"

/-- Reference password resolution chain, following the spec's words. -/
def specResolvePassword (cloud : VSphereCloudSpec) (sks : SecretKeySelector) :
    Except String String :=
  if cloud.infraManagementUser.password ≠ "" then .ok cloud.infraManagementUser.password
  else if cloud.password ≠ "" then .ok cloud.password
  else if cloud.credentialsReference then
    match sks VsphereInfraManagementUserPassword with
    | .error e => .error e
    | .ok p => if p = "" then sks VspherePassword else .ok p
  else .error "no source can resolve the password"

/-! ## Concrete fixtures (used by witnesses and counterexamples) -/

/-- A secret store that has no entries. -/
def noSecret : SecretKeySelector := fun _ => .error "secret not found"

def dcPlain : DatacenterSpecVSphere :=
  ⟨"https://vc.example.com", "dc1", false, "ds-default", "", none⟩

def provPlain : Provider := ⟨dcPlain, noSecret⟩

/-- A provider whose datacenter sets no default datastore. -/
def provNoDatastore : Provider := ⟨{ dcPlain with defaultDatastore := "" }, noSecret⟩

/-- Inline cluster credentials, nothing provisioned yet. -/
def cloudInline : VSphereCloudSpec :=
  ⟨"user", "pass", "", "", "", "", "", ⟨"", ""⟩, false⟩

def clusterFresh : Cluster := ⟨"abcd", [], cloudInline⟩

/-- A cluster whose folder step already completed. -/
def clusterWithFolder : Cluster :=
  ⟨"abcd", [folderCleanupFinalizer], { cloudInline with folder := "/dc1/vm/abcd" }⟩

/-- A cluster carrying only the tag-category cleanup finalizer. -/
def clusterTagOnly : Cluster :=
  ⟨"abcd", [tagCategoryCleanupFinilizer], { cloudInline with tagCategoryID := "cat-1" }⟩

/-- Every external call succeeds. -/
def envAllOk : CloudEnv :=
  ⟨none, none, fun _ => none, fun _ => none, .ok "cat-1", none, none, none, none, none⟩

def envFolderCreateFails : CloudEnv :=
  { envAllOk with createVMFolderErr := fun _ => some "boom" }

def envTagDeleteFails : CloudEnv :=
  { envAllOk with deleteTagCategoryErr := some "tag delete failed" }

def envFolderDeleteFails : CloudEnv :=
  { envAllOk with deleteVMFolderErr := fun _ => some "folder delete failed" }

def venvAllOk : ValidateEnv := ⟨none, none, none, none, none⟩

/-- A datacenter spec carrying an infra-management user. -/
def dcInfra : DatacenterSpecVSphere :=
  { dcPlain with infraManagementUser := some ⟨"infra", "ipass"⟩ }

/-- A cluster-level spec with both datastore kinds set. -/
def cloudBothDatastores : VSphereCloudSpec :=
  { cloudInline with datastore := "ds1", datastoreCluster := "dsc1" }

def specOldFolder : CloudSpec := ⟨some { cloudInline with folder := "/dc/vm/a" }⟩

def specNewFolder : CloudSpec := ⟨some { cloudInline with folder := "/dc/vm/b" }⟩

/-- A datacenter whose override root path is "/dc/vm/a". -/
def dcRootA : DatacenterSpecVSphere := { dcPlain with rootPath := "/dc/vm/a" }

/-- The four-folder inventory from the spec's filter-correctness example. -/
def envFourFolders : FoldersEnv :=
  ⟨none, .ok ["/dc/vm", "/dc/vm/a", "/dc/vm/ab", "/dc/other"]⟩

/-! # Theorems -/

example : getVMRootPath ⟨"", "dc1", false, "", "", none⟩ = "/dc1/vm" := by decide

example : getVMRootPath ⟨"", "dc1", false, "", "/kubermatic//vms/", none⟩ = "/kubermatic/vms" := by
  decide

/-- **C9**: for every datacenter spec whose `infraManagementUser` pointer is
non-nil, `newSession` logs in with the datacenter infra-management user's
username and password regardless of the username/password arguments — even
when those fields are empty — so any two credential arguments produce the
identical login request. -/
theorem sessionLoginIgnoresCredentialArguments
    (dc : DatacenterSpecVSphere) (u : VSphereCredentials)
    (h : dc.infraManagementUser = some u) (u1 p1 u2 p2 : String) :
    newSessionLoginUser dc u1 p1 = (u.username, u.password) ∧
      newSessionLoginUser dc u1 p1 = newSessionLoginUser dc u2 p2 := by
  simp [newSessionLoginUser, h]

theorem sessionLoginIgnoresCredentialArgumentsWitness :
    newSessionLoginUser dcInfra "user" "pass" = ("infra", "ipass") ∧
      newSessionLoginUser dcInfra "user" "pass" = newSessionLoginUser dcInfra "" "" :=
  sessionLoginIgnoresCredentialArguments dcInfra ⟨"infra", "ipass"⟩ rfl "user" "pass" "" ""

/-- **C6**: `ValidateCloudSpecUpdate` is a pure function that, on specs whose
vSphere sections are present, fails exactly when the old folder is non-empty
and the new folder differs from it, and succeeds otherwise. -/
theorem validateCloudSpecUpdateFolderRelocation
    (os ns : CloudSpec) (o n : VSphereCloudSpec)
    (ho : os.vsphere = some o) (hn : ns.vsphere = some n) :
    ((∃ e, ValidateCloudSpecUpdate os ns = .error e) ↔
      (o.folder ≠ "" ∧ o.folder ≠ n.folder)) := by
  unfold ValidateCloudSpecUpdate
  rw [ho, hn]
  simp only [Option.isNone_some, Bool.false_eq_true, or_self, if_false]
  split_ifs with h
  · simpa using h
  · simpa using h

theorem validateCloudSpecUpdateFolderRelocationWitness :
    ∃ e, ValidateCloudSpecUpdate specOldFolder specNewFolder = .error e :=
  (validateCloudSpecUpdateFolderRelocation specOldFolder specNewFolder
    { cloudInline with folder := "/dc/vm/a" } { cloudInline with folder := "/dc/vm/b" }
    rfl rfl).mpr (by constructor <;> decide)

/-- **C5**: `ValidateCloudSpec` fails when neither the datacenter default
datastore nor a cluster-level datastore nor a cluster-level datastore
cluster is set, and fails when both cluster-level datastore kinds are set;
in both cases it returns the configuration error without any vCenter
session being opened. -/
theorem validateCloudSpecConfigurationErrors
    (p : Provider) (env : ValidateEnv) (spec : VSphereCloudSpec) (cr : String × String)
    (hcred : GetCredentialsForCluster spec p.secretKeySelector (some p.dc) = .ok cr) :
    (p.dc.defaultDatastore = "" → spec.datastoreCluster = "" → spec.datastore = "" →
      (ValidateCloudSpec p env spec).1 =
          .error "no default datastore provided at datacenter nor datastore/datastore cluster at cluster level" ∧
        CloudEvent.openSession ∉ (ValidateCloudSpec p env spec).2) ∧
    (spec.datastoreCluster ≠ "" → spec.datastore ≠ "" →
      (ValidateCloudSpec p env spec).1 =
          .error "either datastore or datastore cluster can be selected" ∧
        CloudEvent.openSession ∉ (ValidateCloudSpec p env spec).2) := by
  constructor
  · intro h1 h2 h3
    simp [ValidateCloudSpec, hcred, h1, h2, h3]
  · intro h1 h2
    simp [ValidateCloudSpec, hcred, h1, h2]

theorem validateCloudSpecConfigurationErrorsWitness :
    ((ValidateCloudSpec provNoDatastore venvAllOk cloudInline).1 =
        .error "no default datastore provided at datacenter nor datastore/datastore cluster at cluster level" ∧
      CloudEvent.openSession ∉ (ValidateCloudSpec provNoDatastore venvAllOk cloudInline).2) ∧
    ((ValidateCloudSpec provPlain venvAllOk cloudBothDatastores).1 =
        .error "either datastore or datastore cluster can be selected" ∧
      CloudEvent.openSession ∉ (ValidateCloudSpec provPlain venvAllOk cloudBothDatastores).2) :=
  ⟨(validateCloudSpecConfigurationErrors provNoDatastore venvAllOk cloudInline
      ("user", "pass") (by rfl)).1 rfl rfl rfl,
    (validateCloudSpecConfigurationErrors provPlain venvAllOk cloudBothDatastores
      ("user", "pass") (by rfl)).2 (by decide) (by decide)⟩

/-! ## Helper lemmas on strings and slash splitting -/

theorem string_toList_append (s t : String) : (s ++ t).toList = s.toList ++ t.toList :=
  String.data_append s t

theorem string_mk_toList (s : String) : String.mk s.toList = s := by
  cases s; rfl

theorem string_toList_eq_nil_iff (s : String) : s.toList = [] ↔ s = "" := by
  cases s with
  | mk data => simp [String.toList, String.ext_iff]

theorem string_toList_ne (s t : String) (h : s ≠ t) : s.toList ≠ t.toList := by
  intro hl
  exact h (String.ext hl)

theorem splitSlash_ne_nil (l : List Char) : splitSlash l ≠ [] := by
  cases l with
  | nil => simp [splitSlash]
  | cons c cs =>
    simp only [splitSlash]
    split_ifs <;> simp

theorem splitSlash_no_slash (l : List Char) (h : '/' ∉ l) : splitSlash l = [l] := by
  induction l with
  | nil => rfl
  | cons c cs ih =>
    have hc : c ≠ '/' := fun hc => h (hc ▸ List.mem_cons_self c cs)
    have hcs : '/' ∉ cs := fun hm => h (List.mem_cons_of_mem c hm)
    simp [splitSlash, hc, ih hcs]

theorem splitSlash_append_slash (l rest : List Char) (h : '/' ∉ l) :
    splitSlash (l ++ '/' :: rest) = l :: splitSlash rest := by
  induction l with
  | nil => simp [splitSlash]
  | cons c cs ih =>
    have hc : c ≠ '/' := fun hc => h (hc ▸ List.mem_cons_self c cs)
    have hcs : '/' ∉ cs := fun hm => h (List.mem_cons_of_mem c hm)
    simp [splitSlash, hc, ih hcs]
theorem goPathJoin_root_dc_vm (d : String) (hne : d ≠ "") (hdot : d ≠ ".")
    (hdd : d ≠ "..") (hs : '/' ∉ d.toList) :
    goPathJoin ["/", d, "vm"] = "/" ++ d ++ "/vm" := by
  have hd_nil : d.toList ≠ [] := fun h => hne ((string_toList_eq_nil_iff d).mp h)
  have hd_dot : d.toList ≠ ['.'] := string_toList_ne d "." hdot
  have hd_dd : d.toList ≠ ['.', '.'] := string_toList_ne d ".." hdd
  have hB2 : ("/" ++ "/" ++ d) ≠ "" := by
    intro h
    have h2 := congrArg String.toList h
    simp only [string_toList_append] at h2
    simp at h2
  have hB3 : ("/" ++ "/" ++ d ++ "/" ++ "vm") ≠ "" := by
    intro h
    have h2 := congrArg String.toList h
    simp only [string_toList_append] at h2
    simp at h2
  have hBL : ("/" ++ "/" ++ d ++ "/" ++ "vm").toList = '/' :: '/' :: (d.toList ++ '/' :: ['v', 'm']) := by
    simp only [string_toList_append]
    have h1 : ("/" : String).toList = ['/'] := by decide
    have h2 : ("vm" : String).toList = ['v', 'm'] := by decide
    rw [h1, h2]
    simp
  unfold goPathJoin
  simp only [List.foldl]
  rw [if_neg (by simp : ¬("" : String) ≠ "")]
  have hslash : ("/" : String) ≠ "" := by simp
  have e0 : (if ("/" : String) ≠ "" then "/" else "") = "/" := if_pos hslash
  rw [e0]
  have e1 : (if ("/" : String) ≠ "" then "/" ++ "/" ++ d else if d ≠ "" then d else "/") = "/" ++ "/" ++ d := if_pos hslash
  rw [e1]
  rw [if_pos hB2]
  rw [if_neg (by simpa using hB3)]
  unfold pathClean
  rw [if_neg (by simpa using hB3)]
  rw [hBL]
  simp only [splitSlash]
  rw [splitSlash_append_slash d.toList ['v', 'm'] hs]
  have hvm : splitSlash ['v', 'm'] = [['v', 'm']] := by decide
  rw [hvm]
  have f1 : (decide (([] : List Char) ≠ [] ∧ ([] : List Char) ≠ ['.'])) = false := by decide
  have f2 : (decide ((['v', 'm'] : List Char) ≠ [] ∧ (['v', 'm'] : List Char) ≠ ['.'])) = true := by
    decide
  have f3 : (decide (d.toList ≠ [] ∧ d.toList ≠ ['.'])) = true := by
    simp only [decide_eq_true_eq]
    exact ⟨hd_nil, hd_dot⟩
  have f4 : (decide ((('/' : Char) :: '/' :: (d.toList ++ ['/', 'v', 'm'])).headI = '/')) = true := by
    simp
  simp only [if_true, List.headI, List.filter, List.tail, f1, f2, f3, f4]
  have f5 : List.foldl (cleanStep (decide True)) [] [d.toList, ['v', 'm']] = [d.toList, ['v', 'm']] := by
    simp only [List.foldl]
    have g1 : cleanStep (decide True) [] d.toList = [d.toList] := by
      simp only [cleanStep]
      rw [if_neg hd_dd]
      simp
    have g2 : cleanStep (decide True) [d.toList] ['v', 'm'] = [d.toList, ['v', 'm']] := by
      simp [cleanStep]
    rw [g1, g2]
  rw [f5]
  rw [if_neg (by simp : ¬([d.toList, ['v', 'm']] : List (List Char)) = [])]
  simp only [List.map]
  have f6 : ({ data := ['v', 'm'] } : String) = "vm" := by decide
  have f7 : ({ data := d.toList } : String) = d := string_mk_toList d
  rw [f6, f7]
  simp only [joinSlash]
  apply String.ext
  simp [String.data_append]

/-- **C8**: the computed VM root path is the datacenter's absolute
"/datacenter/vm" directory when no override root path is configured
(for a datacenter name that is a plain path segment), and is the
path-normalized override — independent of the datacenter name — when an
override is configured. -/
theorem vmRootPathComputation (dc : DatacenterSpecVSphere) :
    (dc.rootPath = "" → dc.datacenter ≠ "" → dc.datacenter ≠ "." → dc.datacenter ≠ ".." →
      '/' ∉ dc.datacenter.toList →
      getVMRootPath dc = "/" ++ dc.datacenter ++ "/vm") ∧
    (dc.rootPath ≠ "" →
      getVMRootPath dc = pathClean dc.rootPath ∧
      ∀ d2 : String, getVMRootPath { dc with datacenter := d2 } = getVMRootPath dc) := by
  constructor
  · intro h0 h1 h2 h3 h4
    unfold getVMRootPath
    rw [h0]
    simp only [ne_eq, not_true_eq_false, if_false]
    exact goPathJoin_root_dc_vm dc.datacenter h1 h2 h3 h4
  · intro h0
    constructor
    · simp [getVMRootPath, h0]
    · intro d2
      simp [getVMRootPath, h0]

theorem vmRootPathComputationWitness :
    getVMRootPath dcPlain = "/" ++ "dc1" ++ "/vm" :=
  (vmRootPathComputation dcPlain).1 rfl (by decide) (by decide) (by decide) (by decide)

theorem goHasPrefix_iff (s pre : String) :
    goHasPrefix s pre = true ↔ ∃ r : String, s = pre ++ r := by
  unfold goHasPrefix
  simp only [decide_eq_true_eq]
  constructor
  · rintro ⟨t, ht⟩
    refine ⟨String.mk t, String.ext ?_⟩
    rw [String.data_append]
    exact ht.symm
  · rintro ⟨r, rfl⟩
    exact ⟨r.toList, (string_toList_append pre r).symm⟩

/-- **C7**: the folder list operation returns exactly the inventory folders
whose path equals the computed root path or begins with the root path
followed by "/"; on the spec's four-folder example with root "/dc/vm/a"
only "/dc/vm/a" survives, excluding the string-prefix match "/dc/vm/ab". -/
theorem vmFolderListFilter :
    (∀ (dc : DatacenterSpecVSphere) (env : FoldersEnv) (paths : List String),
      env.newSessionErr = none → env.folderListRes = .ok paths →
      ∃ fs, GetVMFolders dc env = .ok fs ∧
        ∀ f : Folder, f ∈ fs ↔
          (f.path ∈ paths ∧
            (f.path = getVMRootPath dc ∨ ∃ r, f.path = getVMRootPath dc ++ "/" ++ r))) ∧
    GetVMFolders dcRootA envFourFolders = .ok [⟨"/dc/vm/a"⟩] := by
  constructor
  · intro dc env paths hs hf
    refine ⟨(paths.filter fun pth =>
        goHasPrefix pth (getVMRootPath dc ++ "/") || pth == getVMRootPath dc).map
          fun pth => ⟨pth⟩, ?_, ?_⟩
    · simp [GetVMFolders, hs, hf]
    · intro f
      simp only [List.mem_map, List.mem_filter]
      constructor
      · rintro ⟨pth, ⟨hm, hcond⟩, rfl⟩
        refine ⟨hm, ?_⟩
        rcases Bool.or_eq_true_iff.mp hcond with hpre | heq
        · rcases (goHasPrefix_iff pth (getVMRootPath dc ++ "/")).mp hpre with ⟨r, hr⟩
          exact Or.inr ⟨r, hr⟩
        · exact Or.inl (by simpa using heq)
      · rintro ⟨hm, hcase⟩
        refine ⟨f.path, ⟨hm, ?_⟩, by cases f; rfl⟩
        rcases hcase with heq | ⟨r, hr⟩
        · simp [heq]
        · exact Bool.or_eq_true_iff.mpr
            (Or.inl ((goHasPrefix_iff f.path (getVMRootPath dc ++ "/")).mpr ⟨r, hr⟩))
  · rfl

theorem vmFolderListFilterWitness :
    ∃ fs, GetVMFolders dcRootA envFourFolders = .ok fs ∧
      ∀ f : Folder, f ∈ fs ↔
        (f.path ∈ ["/dc/vm", "/dc/vm/a", "/dc/vm/ab", "/dc/other"] ∧
          (f.path = getVMRootPath dcRootA ∨ ∃ r, f.path = getVMRootPath dcRootA ++ "/" ++ r)) :=
  vmFolderListFilter.1 dcRootA envFourFolders ["/dc/vm", "/dc/vm/a", "/dc/vm/ab", "/dc/other"]
    rfl rfl

/-- **C1**: when folder creation fails during initialize, the call returns an
error, the update callback is never invoked, and the persisted cluster —
its folder field and finalizer set included — is exactly the input cluster. -/
theorem initFolderFailureLeavesStateUnchanged
    (p : Provider) (env : CloudEnv) (cluster : Cluster) (cr : String × String) (e : String)
    (hcred : GetCredentialsForCluster cluster.vsphere p.secretKeySelector (some p.dc) = .ok cr)
    (hfolder : cluster.vsphere.folder = "")
    (hsess : env.newSessionErr = none)
    (hcreate : env.createVMFolderErr (goPathJoin [getVMRootPath p.dc, cluster.name]) = some e) :
    (∃ msg, (InitializeCloudProvider p env cluster).result = .error msg) ∧
      (InitializeCloudProvider p env cluster).persisted = cluster ∧
      CloudEvent.updateCluster ∉ (InitializeCloudProvider p env cluster).trace := by
  unfold InitializeCloudProvider
  rw [hcred]
  simp [hfolder, hsess, hcreate]

theorem initFolderFailureLeavesStateUnchangedWitness :
    (∃ msg, (InitializeCloudProvider provPlain envFolderCreateFails clusterFresh).result =
        .error msg) ∧
      (InitializeCloudProvider provPlain envFolderCreateFails clusterFresh).persisted =
        clusterFresh ∧
      CloudEvent.updateCluster ∉
        (InitializeCloudProvider provPlain envFolderCreateFails clusterFresh).trace :=
  initFolderFailureLeavesStateUnchanged provPlain envFolderCreateFails clusterFresh
    ("user", "pass") "boom" (by rfl) rfl rfl (by rfl)

/-- **C2**: on a cluster whose folder is already set and whose tag category
is empty, initialize performs no folder-creation call (the folder field is
left unchanged), and — when the tag step's calls succeed — performs exactly
the tag-category creation step, persisting the category ID and its cleanup
finalizer through the update callback. -/
theorem resumeAfterPartialInitCreatesOnlyTagCategory
    (p : Provider) (env : CloudEnv) (cluster : Cluster) (cr : String × String) (cid : String)
    (hcred : GetCredentialsForCluster cluster.vsphere p.secretKeySelector (some p.dc) = .ok cr)
    (hfolder : cluster.vsphere.folder ≠ "")
    (htag : cluster.vsphere.tagCategoryID = "") :
    (∀ pth, CloudEvent.createFolder pth ∉ (InitializeCloudProvider p env cluster).trace) ∧
      (env.newRESTSessionErr = none → env.createTagCategoryRes = .ok cid →
        env.updateTagErr = none →
        (InitializeCloudProvider p env cluster).result = .ok
            { cluster with
              finalizers := addFinalizer cluster.finalizers tagCategoryCleanupFinilizer
              vsphere := { cluster.vsphere with tagCategoryID := cid } } ∧
          (InitializeCloudProvider p env cluster).trace =
            [.openRESTSession, .createTagCategory, .updateCluster]) := by
  constructor
  · intro pth
    cases h1 : env.newRESTSessionErr <;> cases h2 : env.createTagCategoryRes <;>
      cases h3 : env.updateTagErr <;>
      simp [InitializeCloudProvider, hcred, hfolder, htag, h1, h2, h3]
  · intro h1 h2 h3
    unfold InitializeCloudProvider
    rw [hcred]
    simp [hfolder, htag, h1, h2, h3]

theorem resumeAfterPartialInitCreatesOnlyTagCategoryWitness :
    (∀ pth, CloudEvent.createFolder pth ∉
        (InitializeCloudProvider provPlain envAllOk clusterWithFolder).trace) ∧
      (InitializeCloudProvider provPlain envAllOk clusterWithFolder).result = .ok
          { clusterWithFolder with
            finalizers := addFinalizer clusterWithFolder.finalizers tagCategoryCleanupFinilizer
            vsphere := { clusterWithFolder.vsphere with tagCategoryID := "cat-1" } } ∧
        (InitializeCloudProvider provPlain envAllOk clusterWithFolder).trace =
          [.openRESTSession, .createTagCategory, .updateCluster] := by
  have h := resumeAfterPartialInitCreatesOnlyTagCategory provPlain envAllOk clusterWithFolder
    ("user", "pass") "cat-1" (by rfl) (by decide) rfl
  exact ⟨h.1, h.2 rfl rfl rfl⟩

/-- **C10**: on a cluster carrying neither cleanup finalizer,
`CleanUpCloudProvider` is not a pure no-op — it still resolves credentials
and opens both the data-plane and the REST session, and it returns an error
with the cluster untouched when credential resolution or either session
open fails (and success, still with the cluster untouched, otherwise). -/
theorem cleanUpWithoutFinalizersStillOpensSessions
    (p : Provider) (env : CloudEnv) (cluster : Cluster)
    (hf1 : ¬ hasFinalizer cluster folderCleanupFinalizer)
    (hf2 : ¬ hasFinalizer cluster tagCategoryCleanupFinilizer) :
    (∀ e, GetCredentialsForCluster cluster.vsphere p.secretKeySelector (some p.dc) = .error e →
      (CleanUpCloudProvider p env cluster).result = .error e ∧
        (CleanUpCloudProvider p env cluster).persisted = cluster ∧
        (CleanUpCloudProvider p env cluster).trace = []) ∧
    (∀ cr, GetCredentialsForCluster cluster.vsphere p.secretKeySelector (some p.dc) = .ok cr →
      (∀ e, env.newSessionErr = some e →
        (CleanUpCloudProvider p env cluster).result =
            .error ("failed to create vCenter session: " ++ e) ∧
          (CleanUpCloudProvider p env cluster).persisted = cluster ∧
          (CleanUpCloudProvider p env cluster).trace = [.openSession]) ∧
      (env.newSessionErr = none → ∀ e, env.newRESTSessionErr = some e →
        (CleanUpCloudProvider p env cluster).result =
            .error ("failed to create REST client session: " ++ e) ∧
          (CleanUpCloudProvider p env cluster).persisted = cluster ∧
          (CleanUpCloudProvider p env cluster).trace = [.openSession, .openRESTSession]) ∧
      (env.newSessionErr = none → env.newRESTSessionErr = none →
        (CleanUpCloudProvider p env cluster).result = .ok cluster ∧
          (CleanUpCloudProvider p env cluster).persisted = cluster ∧
          (CleanUpCloudProvider p env cluster).trace = [.openSession, .openRESTSession])) := by
  constructor
  · intro e hcred
    simp [CleanUpCloudProvider, hcred]
  · intro cr hcred
    refine ⟨?_, ?_, ?_⟩
    · intro e hsess
      simp [CleanUpCloudProvider, hcred, hsess]
    · intro hsess e hrest
      simp [CleanUpCloudProvider, hcred, hsess, hrest]
    · intro hsess hrest
      simp [CleanUpCloudProvider, hcred, hsess, hrest, hf1, hf2]

theorem cleanUpWithoutFinalizersStillOpensSessionsWitness :
    (CleanUpCloudProvider provPlain envAllOk clusterFresh).result = .ok clusterFresh ∧
      (CleanUpCloudProvider provPlain envAllOk clusterFresh).persisted = clusterFresh ∧
      (CleanUpCloudProvider provPlain envAllOk clusterFresh).trace =
        [.openSession, .openRESTSession] :=
  ((cleanUpWithoutFinalizersStillOpensSessions provPlain envAllOk clusterFresh
    (by decide) (by decide)).2 ("user", "pass") (by rfl)).2.2 rfl rfl

/-- **C3 counterexample**: a cluster without the folder-cleanup finalizer on
which credentials resolve and both sessions open, yet `CleanUpCloudProvider`
returns an error — because the tag-category finalizer is present and the
category deletion fails — refuting "returns success" as universally stated. -/
theorem cleanUpFolderFinalizerAbsentCanStillFail :
    ¬ hasFinalizer clusterTagOnly folderCleanupFinalizer ∧
      envTagDeleteFails.newSessionErr = none ∧
      envTagDeleteFails.newRESTSessionErr = none ∧
      (CleanUpCloudProvider provPlain envTagDeleteFails clusterTagOnly).result =
        .error "tag delete failed" :=
  ⟨by decide, rfl, rfl, by rfl⟩

/-- **C3 (amended)**: if the folder-cleanup finalizer is absent, cleanup
performs no folder-deletion call and — given credentials resolve, both
sessions open, and the tag-category step (when its finalizer is present)
succeeds — returns success; if the folder-cleanup finalizer is present and
folder deletion fails, cleanup returns that error, never invokes the
finalizer-removing update, and the persisted cluster keeps the finalizer. -/
theorem cleanUpFinalizerGuards
    (p : Provider) (env : CloudEnv) (cluster : Cluster) (cr : String × String)
    (hcred : GetCredentialsForCluster cluster.vsphere p.secretKeySelector (some p.dc) = .ok cr) :
    (¬ hasFinalizer cluster folderCleanupFinalizer →
      (∀ pth, CloudEvent.deleteFolder pth ∉ (CleanUpCloudProvider p env cluster).trace) ∧
      (env.newSessionErr = none → env.newRESTSessionErr = none →
        (hasFinalizer cluster tagCategoryCleanupFinilizer →
          env.deleteTagCategoryErr = none ∧ env.updateTagCleanupErr = none) →
        ∃ c, (CleanUpCloudProvider p env cluster).result = .ok c)) ∧
    (hasFinalizer cluster folderCleanupFinalizer →
      env.newSessionErr = none → env.newRESTSessionErr = none →
      ∀ e, env.deleteVMFolderErr cluster.vsphere.folder = some e →
        (CleanUpCloudProvider p env cluster).result = .error e ∧
          (CleanUpCloudProvider p env cluster).persisted = cluster ∧
          CloudEvent.updateCluster ∉ (CleanUpCloudProvider p env cluster).trace) := by
  constructor
  · intro hf1
    constructor
    · intro pth
      cases h1 : env.newSessionErr <;> cases h2 : env.newRESTSessionErr <;>
        by_cases h3 : hasFinalizer cluster tagCategoryCleanupFinilizer <;>
        cases h4 : env.deleteTagCategoryErr <;> cases h5 : env.updateTagCleanupErr <;>
        simp [CleanUpCloudProvider, hcred, hf1, h1, h2, h3, h4, h5]
    · intro h1 h2 h3
      by_cases h4 : hasFinalizer cluster tagCategoryCleanupFinilizer
      · rcases h3 h4 with ⟨h5, h6⟩
        exact ⟨{ cluster with
            finalizers := removeFinalizer cluster.finalizers tagCategoryCleanupFinilizer },
          by simp [CleanUpCloudProvider, hcred, hf1, h1, h2, h4, h5, h6]⟩
      · exact ⟨cluster, by simp [CleanUpCloudProvider, hcred, hf1, h1, h2, h4]⟩
  · intro hf1 h1 h2 e h3
    simp [CleanUpCloudProvider, hcred, hf1, h1, h2, h3]

theorem cleanUpFinalizerGuardsWitness :
    (CleanUpCloudProvider provPlain envFolderDeleteFails clusterWithFolder).result =
        .error "folder delete failed" ∧
      (CleanUpCloudProvider provPlain envFolderDeleteFails clusterWithFolder).persisted =
        clusterWithFolder ∧
      CloudEvent.updateCluster ∉
        (CleanUpCloudProvider provPlain envFolderDeleteFails clusterWithFolder).trace :=
  (cleanUpFinalizerGuards provPlain envFolderDeleteFails clusterWithFolder
    ("user", "pass") (by rfl)).2 (by decide) rfl rfl "folder delete failed" (by rfl)

theorem specResolveUsername_cases
    (cloud : VSphereCloudSpec) (sks : SecretKeySelector) (uu : String)
    (hu : specResolveUsername cloud sks = .ok uu) :
    (cloud.infraManagementUser.username ≠ "" ∧ uu = cloud.infraManagementUser.username) ∨
    (cloud.infraManagementUser.username = "" ∧ cloud.username ≠ "" ∧ uu = cloud.username) ∨
    (cloud.infraManagementUser.username = "" ∧ cloud.username = "" ∧
      cloud.credentialsReference = true ∧
      ((sks VsphereInfraManagementUserUsername = .ok uu ∧ uu ≠ "") ∨
        (sks VsphereInfraManagementUserUsername = .ok "" ∧ sks VsphereUsername = .ok uu))) := by
  unfold specResolveUsername at hu
  split_ifs at hu with h1 h2 h3
  · injection hu with h
    exact Or.inl ⟨h1, h.symm⟩
  · injection hu with h
    exact Or.inr (Or.inl ⟨not_not.mp h1, h2, h.symm⟩)
  · cases hsk : sks VsphereInfraManagementUserUsername with
    | error e => rw [hsk] at hu; exact absurd hu (by simp)
    | ok u =>
      rw [hsk] at hu
      by_cases hueq : u = ""
      · simp only [hueq, if_pos rfl] at hu
        exact Or.inr (Or.inr ⟨not_not.mp h1, not_not.mp h2, h3,
          Or.inr ⟨by rw [hueq], by simpa using hu⟩⟩)
      · simp only [hueq, if_false] at hu
        have h : u = uu := by simpa [hueq] using hu
        subst h
        exact Or.inr (Or.inr ⟨not_not.mp h1, not_not.mp h2, h3, Or.inl ⟨rfl, hueq⟩⟩)

theorem specResolvePassword_cases
    (cloud : VSphereCloudSpec) (sks : SecretKeySelector) (pp : String)
    (hp : specResolvePassword cloud sks = .ok pp) :
    (cloud.infraManagementUser.password ≠ "" ∧ pp = cloud.infraManagementUser.password) ∨
    (cloud.infraManagementUser.password = "" ∧ cloud.password ≠ "" ∧ pp = cloud.password) ∨
    (cloud.infraManagementUser.password = "" ∧ cloud.password = "" ∧
      cloud.credentialsReference = true ∧
      ((sks VsphereInfraManagementUserPassword = .ok pp ∧ pp ≠ "") ∨
        (sks VsphereInfraManagementUserPassword = .ok "" ∧ sks VspherePassword = .ok pp))) := by
  unfold specResolvePassword at hp
  split_ifs at hp with h1 h2 h3
  · injection hp with h
    exact Or.inl ⟨h1, h.symm⟩
  · injection hp with h
    exact Or.inr (Or.inl ⟨not_not.mp h1, h2, h.symm⟩)
  · cases hsk : sks VsphereInfraManagementUserPassword with
    | error e => rw [hsk] at hp; exact absurd hp (by simp)
    | ok u =>
      rw [hsk] at hp
      by_cases hueq : u = ""
      · simp only [hueq, if_pos rfl] at hp
        exact Or.inr (Or.inr ⟨not_not.mp h1, not_not.mp h2, h3,
          Or.inr ⟨by rw [hueq], by simpa using hp⟩⟩)
      · simp only [hueq, if_false] at hp
        have h : u = pp := by simpa [hueq] using hp
        subst h
        exact Or.inr (Or.inr ⟨not_not.mp h1, not_not.mp h2, h3, Or.inl ⟨rfl, hueq⟩⟩)

theorem getUsernameAndPassword_follows_spec
    (cloud : VSphereCloudSpec) (sks : SecretKeySelector) (uu pp : String)
    (hu : specResolveUsername cloud sks = .ok uu) (hu0 : uu ≠ "")
    (hp : specResolvePassword cloud sks = .ok pp) (hp0 : pp ≠ "") :
    getUsernameAndPassword cloud sks true = .ok (uu, pp) := by
  rcases specResolveUsername_cases cloud sks uu hu with
      ⟨h1, huu⟩ | ⟨h1, h2, huu⟩ | ⟨h1, h2, href, (⟨hs1, hs0⟩ | ⟨hs1, hs2⟩)⟩ <;>
    rcases specResolvePassword_cases cloud sks pp hp with
      ⟨g1, hpp⟩ | ⟨g1, g2, hpp⟩ | ⟨g1, g2, gref, (⟨gs1, gs0⟩ | ⟨gs1, gs2⟩)⟩ <;>
    subst_vars <;>
    simp_all [getUsernameAndPassword]

/-- **C4**: credential resolution precedence — a datacenter-level
infra-management user with both fields non-empty wins outright; otherwise
the cluster-level infra-management user takes precedence over the inline
cluster credentials, which take precedence over the secret store (the
management-user key queried before the plain key), username and password
each resolved independently through this chain (stated as refinement of the
`specResolve…` reference chains). -/
theorem credentialResolutionPrecedence
    (cloud : VSphereCloudSpec) (sks : SecretKeySelector) (dc : Option DatacenterSpecVSphere) :
    (∀ d u, dc = some d → d.infraManagementUser = some u →
      u.username ≠ "" → u.password ≠ "" →
      GetCredentialsForCluster cloud sks dc = .ok (u.username, u.password)) ∧
    ((dc = none ∨ ∃ d, dc = some d ∧ (d.infraManagementUser = none ∨
        ∃ u, d.infraManagementUser = some u ∧ (u.username = "" ∨ u.password = ""))) →
      ∀ uu pp, specResolveUsername cloud sks = .ok uu → uu ≠ "" →
        specResolvePassword cloud sks = .ok pp → pp ≠ "" →
        GetCredentialsForCluster cloud sks dc = .ok (uu, pp)) := by
  constructor
  · rintro d u rfl hinf hu hp
    simp [GetCredentialsForCluster, hinf, hu, hp]
  · rintro (rfl | ⟨d, rfl, hcase⟩) uu pp hu hu0 hp hp0
    · simpa [GetCredentialsForCluster] using
        getUsernameAndPassword_follows_spec cloud sks uu pp hu hu0 hp hp0
    · have hmain := getUsernameAndPassword_follows_spec cloud sks uu pp hu hu0 hp hp0
      rcases hcase with hnone | ⟨u, hsome, hor⟩
      · simpa [GetCredentialsForCluster, hnone] using hmain
      · rcases hor with h | h <;>
          simpa [GetCredentialsForCluster, hsome, h] using hmain

theorem credentialResolutionPrecedenceWitness :
    GetCredentialsForCluster cloudInline noSecret (some dcInfra) = .ok ("infra", "ipass") :=
  (credentialResolutionPrecedence cloudInline noSecret (some dcInfra)).1 dcInfra
    ⟨"infra", "ipass"⟩ rfl rfl (by decide) (by decide)
